import Mathlib

/-
Verification development for the chardet streaming character-encoding
detector.  The definitions below are a shallow embedding of the Python
sources:

  * chardet/utf1632prober.py     (UTF1632Prober, the zero-byte positional
                                  analyzer)
  * chardet/chardistribution.py  (CharDistributionAnalysis and its
                                  per-encoding subclasses)
  * chardet/charsetprober.py     (CharSetProber static byte filters)
  * chardet/universaldetector.py (UniversalDetector, the coordinator)

Bytes are modelled as Nat (always < 256 in practice; no arithmetic
overflows occur), Python float constants as Rat, Python lists as
List Nat, and fallible operations (attribute errors) as an explicit
error component.  Mutation of Python objects is modelled by explicit
state passing; a Python method that raises after partially mutating
its object returns the partially-mutated state together with the error,
matching Python semantics where the object retains mutations performed
before the raise.
-/

namespace Chardet

/-- Modelled from the spec: the probing states of a prober.  The module
chardet/enums.py is part of the repository but is not among the given
sources; spec section 3 lists the states DETECTING, FOUND_IT and NOT_ME
with initial state DETECTING. -/
inductive ProbingState
  | detecting
  | foundIt
  | notMe
deriving DecidableEq

/-- Modelled from the spec: the coordinator input classes.  The module
chardet/enums.py is not among the given sources; spec section 3 lists
PURE_ASCII, ESC_ASCII and HIGH_BYTE with initial PURE_ASCII. -/
inductive InputState
  | pureAscii
  | escAscii
  | highByte
deriving DecidableEq

/-- A Python exception marker.  The only exception relevant to this
development is the AttributeError raised when UTF1632Prober.reset calls
CharSetProber.reset, a method that chardet/charsetprober.py never
defines (the class body contains only SHORTCUT_THRESHOLD, the
constructor and two static byte filters). -/
inductive PyErr
  | attributeError
deriving DecidableEq

/-- int.from_bytes(bs, byteorder="big") for a list of byte values. -/
def beVal (bs : List Nat) : Nat :=
  bs.foldl (fun acc b => acc * 256 + b) 0

/-- The encoding-specific little-endian two-byte integer key of a
character: the first byte is the low-order byte. -/
def leVal (bs : List Nat) : Nat :=
  bs.foldr (fun b acc => acc * 256 + b) 0

/-- Python slice l[a:b] for nonnegative indices a and b. -/
def pySlice (l : List Nat) (a b : Nat) : List Nat :=
  (l.take b).drop a

/-- UTF1632Prober.validate_utf32_characters: the quad, read big-endian,
must be a scalar value at most 0x10FFFF outside the surrogate range. -/
def validate_utf32_characters (quad : List Nat) : Bool :=
  decide (beVal quad ≤ 0x10FFFF ∧ ¬(0xD800 ≤ beVal quad ∧ beVal quad ≤ 0xDFFF))

/-- UTF1632Prober.validate_utf16_characters: the pair, read big-endian,
must be below the surrogate range, a surrogate half, or in
0xE000..0xFFFF. -/
def validate_utf16_characters (pair : List Nat) : Bool :=
  decide ((0xD800 ≤ beVal pair ∧ beVal pair ≤ 0xDBFF)
    ∨ (0xDC00 ≤ beVal pair ∧ beVal pair ≤ 0xDFFF)
    ∨ beVal pair < 0xD800
    ∨ (0xE000 ≤ beVal pair ∧ beVal pair ≤ 0xFFFF))

/-- The state of UTF1632Prober (chardet/utf1632prober.py).  The field
`state` is the probing state inherited from CharSetProber; the base
class in chardet/charsetprober.py defines neither a `state` attribute
nor a `reset` method, so that part is modelled from the spec (initial
DETECTING, reset restores DETECTING).  The field `charsetName` models
`_charset_name`, written by `_check_encoding`. -/
structure UTF1632Prober where
  state : ProbingState
  charsetName : Option String
  position : Nat
  zerosAtMod : List Nat
  nonzerosAtMod : List Nat
  quad : List Nat
  invalidUtf16be : Bool
  invalidUtf16le : Bool
  invalidUtf32be : Bool
  invalidUtf32le : Bool
  firstHalf16be : Bool
  firstHalf16le : Bool
deriving DecidableEq

/-- MIN_CHARS_FOR_DETECTION in utf1632prober.py. -/
def minCharsForDetection : Nat := 20

/-- EXPECTED_RATIO = 0.94 in utf1632prober.py, modelled exactly as a
rational (the comparisons proved about it are far from the rounding
error of the double 0.94). -/
def expectedRatio : Rat := 94 / 100

/-- The state of a freshly constructed UTF1632Prober, as established by
`__init__` (all counters zero, flags false; probing state DETECTING is
the spec-modelled base-class initial state). -/
def utf1632Init : UTF1632Prober :=
  { state := ProbingState.detecting
    charsetName := none
    position := 0
    zerosAtMod := [0, 0, 0, 0]
    nonzerosAtMod := [0, 0, 0, 0]
    quad := [0, 0, 0, 0]
    invalidUtf16be := false
    invalidUtf16le := false
    invalidUtf32be := false
    invalidUtf32le := false
    firstHalf16be := false
    firstHalf16le := false }

/-- UTF1632Prober.reset: restores all positional fields per
utf1632prober.py lines 72-81; the base-class part is modelled from the
spec as restoring the probing state to DETECTING (the source calls
CharSetProber.reset, which charsetprober.py does not define — that
raise is the subject of claim C1 and is modelled separately in the
coordinator).  `_charset_name` is not touched by reset. -/
def UTF1632Prober.reset (s : UTF1632Prober) : UTF1632Prober :=
  { utf1632Init with charsetName := s.charsetName }

/-- One step of the UTF-16 validation block of UTF1632Prober.feed:
given the sticky invalid flag, the pending-high-surrogate flag and the
pair of bytes, returns the updated (invalid, pending) flags.  The whole
block is skipped when the invalid flag is already set. -/
def utf16Update (invalid firstHalf : Bool) (pair : List Nat) :
    Bool × Bool :=
  if invalid then (invalid, firstHalf)
  else if !validate_utf16_characters pair then (true, firstHalf)
  else if 0xD800 ≤ beVal pair ∧ beVal pair ≤ 0xDBFF then (invalid, true)
  else if 0xDC00 ≤ beVal pair ∧ beVal pair ≤ 0xDFFF then (!firstHalf, false)
  else (invalid, firstHalf)

/-- The body of the per-byte loop of UTF1632Prober.feed, up to and
including the position increment (utf1632prober.py lines 89-134).  Note
the pair taken at odd positions is the Python slice
`quad[(position - 1) % 4 : (position + 1) % 4]`, which is empty when
position % 4 == 3. -/
def utf1632Step (s : UTF1632Prober) (byte : Nat) : UTF1632Prober :=
  let m := s.position % 4
  let quad := s.quad.set m byte
  let zeros :=
    if byte = 0 then s.zerosAtMod.set m (s.zerosAtMod.getD m 0 + 1)
    else s.zerosAtMod
  let nonzeros :=
    if byte = 0 then s.nonzerosAtMod
    else s.nonzerosAtMod.set m (s.nonzerosAtMod.getD m 0 + 1)
  let inv32be :=
    if m = 3 ∧ !s.invalidUtf32be then !validate_utf32_characters quad
    else s.invalidUtf32be
  let inv32le :=
    if m = 3 ∧ !s.invalidUtf32le then !validate_utf32_characters quad.reverse
    else s.invalidUtf32le
  let pairBE := pySlice quad ((s.position - 1) % 4) ((s.position + 1) % 4)
  let be :=
    if s.position % 2 = 1 then utf16Update s.invalidUtf16be s.firstHalf16be pairBE
    else (s.invalidUtf16be, s.firstHalf16be)
  let le :=
    if s.position % 2 = 1 then utf16Update s.invalidUtf16le s.firstHalf16le pairBE.reverse
    else (s.invalidUtf16le, s.firstHalf16le)
  { s with
    quad := quad
    zerosAtMod := zeros
    nonzerosAtMod := nonzeros
    invalidUtf32be := inv32be
    invalidUtf32le := inv32le
    invalidUtf16be := be.1
    firstHalf16be := be.2
    invalidUtf16le := le.1
    firstHalf16le := le.2
    position := s.position + 1 }

/-- UTF1632Prober._check_encoding: with total the sum of all eight
counters, computes the four zero-byte ratios and returns the first
qualifying charset name, or none.  Float division is modelled as exact
rational division (total ≥ 20 > 0 in the branch where it is used). -/
def checkEncoding (s : UTF1632Prober) : Option String :=
  let total := s.zerosAtMod.sum + s.nonzerosAtMod.sum
  if total < minCharsForDetection then none
  else
    let z := fun i => s.zerosAtMod.getD i 0
    if expectedRatio < ((z 0 + z 1 + z 2 : Rat) / total) ∧ !s.invalidUtf32be then
      some ("UTF-32BE")
    else if expectedRatio < ((z 1 + z 2 + z 3 : Rat) / total) ∧ !s.invalidUtf32le then
      some ("UTF-32LE")
    else if expectedRatio < ((z 0 + z 1 : Rat) / total) ∧ !s.invalidUtf16be then
      some ("UTF-16BE")
    else if expectedRatio < ((z 1 + z 2 : Rat) / total) ∧ !s.invalidUtf16le then
      some ("UTF-16LE")
    else none

/-- The loop of UTF1632Prober.feed: process each byte, and after the
position reaches MIN_CHARS_FOR_DETECTION consult `_check_encoding`; on
success latch the name, set FOUND_IT and break. -/
def utf1632Loop : UTF1632Prober → List Nat → UTF1632Prober
  | s, [] => s
  | s, b :: rest =>
    if minCharsForDetection ≤ (utf1632Step s b).position then
      match checkEncoding (utf1632Step s b) with
      | some name =>
          { utf1632Step s b with
              state := ProbingState.foundIt, charsetName := some name }
      | none => utf1632Loop (utf1632Step s b) rest
    else utf1632Loop (utf1632Step s b) rest

/-- UTF1632Prober.feed: returns the prober state immediately when in
NOT_ME, otherwise runs the per-byte loop and returns the resulting
probing state together with the mutated prober. -/
def UTF1632Prober.feed (s : UTF1632Prober) (bs : List Nat) :
    ProbingState × UTF1632Prober :=
  if s.state = ProbingState.notMe then (s.state, s)
  else
    let s1 := utf1632Loop s bs
    (s1.state, s1)

/-- UTF1632Prober.get_confidence. -/
def UTF1632Prober.get_confidence (s : UTF1632Prober) : Rat :=
  if s.state = ProbingState.foundIt then 99 / 100
  else if s.state = ProbingState.notMe then 1 / 100
  else 1 / 2

/-
chardet/chardistribution.py
-/

/-- A Python dict key as used by CharDistributionAnalysis: the dict
`_char_to_freq_order` is built as `dict(enumerate(table))`, whose keys
are the integer indices, while `get_order` queries it with the two-byte
`bytes` object.  A Python dict can hold keys of several types and an
int key never equals a bytes key. -/
inductive PyKey
  | intKey (n : Nat)
  | bytesKey (bs : List Nat)
deriving DecidableEq

/-- dict(enumerate(table)): each index paired with the table entry at
that index, the key being the integer index. -/
def dictEnumerate (table : List Nat) : List (PyKey × Nat) :=
  table.enum.map fun p => (PyKey.intKey p.1, p.2)

/-- Python d.get(key, default) on the association-list model of a dict
(keys of dictEnumerate are distinct, so first-match lookup is exact). -/
def dictGet (d : List (PyKey × Nat)) (k : PyKey) (dflt : Int) : Int :=
  match d.find? (fun kv => kv.1 = k) with
  | some kv => (kv.2 : Int)
  | none => dflt

/-- The state of CharDistributionAnalysis: the wired table triple plus
the two counters.  typical_distribution_ratio (a float constant per
encoding) is modelled as a rational parameter. -/
structure CharDistributionAnalysis where
  charToFreqOrder : List (PyKey × Nat)
  tableSize : Nat
  typicalDistributionRatio : Rat
  totalChars : Nat
  freqChars : Nat
deriving DecidableEq

/-- SURE_YES = 0.99. -/
def sureYes : Rat := 99 / 100

/-- SURE_NO = 0.01. -/
def sureNo : Rat := 1 / 100

/-- MINIMUM_DATA_THRESHOLD = 3. -/
def minimumDataThreshold : Nat := 3

/-- The concrete subclass constructors (Big5DistributionAnalysis and
the six others) all perform `_char_to_freq_order =
dict(enumerate(TABLE))` with their respective table, table size and
ratio, on top of the zeroed counters from `reset`. -/
def mkDistribution (table : List Nat) (tableSize : Nat) (ratio : Rat) :
    CharDistributionAnalysis :=
  { charToFreqOrder := dictEnumerate table
    tableSize := tableSize
    typicalDistributionRatio := ratio
    totalChars := 0
    freqChars := 0 }

/-- CharDistributionAnalysis.reset: clears the two counters. -/
def CharDistributionAnalysis.reset (s : CharDistributionAnalysis) :
    CharDistributionAnalysis :=
  { s with totalChars := 0, freqChars := 0 }

/-- CharDistributionAnalysis.get_order: -1 unless the argument has
exactly two bytes, else the dict lookup with the bytes object as key
(default -1). -/
def CharDistributionAnalysis.get_order (s : CharDistributionAnalysis)
    (char : List Nat) : Int :=
  if char.length ≠ 2 then -1
  else dictGet s.charToFreqOrder (PyKey.bytesKey char) (-1)

/-- CharDistributionAnalysis.feed: only 2-byte characters are counted;
when the order lookup does not yield -1, total_chars is incremented and
freq_chars as well when the order is below table_size. -/
def CharDistributionAnalysis.feed (s : CharDistributionAnalysis)
    (char : List Nat) (charLen : Nat) : CharDistributionAnalysis :=
  if charLen = 2 then
    let order := s.get_order char
    if order ≠ -1 then
      { s with
        totalChars := s.totalChars + 1
        freqChars :=
          if order < (s.tableSize : Int) then s.freqChars + 1 else s.freqChars }
    else s
  else s

/-- CharDistributionAnalysis.get_confidence, with float arithmetic
modelled over the rationals. -/
def CharDistributionAnalysis.get_confidence (s : CharDistributionAnalysis) :
    Rat :=
  if s.totalChars ≤ 0 ∨ s.freqChars ≤ minimumDataThreshold then sureNo
  else if s.totalChars ≠ s.freqChars then
    let r : Rat :=
      (s.freqChars : Rat) /
        (((s.totalChars : Rat) - (s.freqChars : Rat)) * s.typicalDistributionRatio)
    if r < sureYes then r else sureYes
  else sureYes

/-
chardet/charsetprober.py: the static byte filter
filter_international_words, i.e.
re.sub applied to the pattern [a-zA-Z]*[\x80-\xff]+[a-zA-Z]*[^a-zA-Z\x80-\xff]?
with replacement a single space.
-/

/-- English alphabet byte. -/
def isAlpha (b : Nat) : Bool :=
  decide ((65 ≤ b ∧ b ≤ 90) ∨ (97 ≤ b ∧ b ≤ 122))

/-- International (high) byte. -/
def isHigh (b : Nat) : Bool :=
  decide (128 ≤ b ∧ b ≤ 255)

/-- Marker byte: neither alphabetic nor high. -/
def isMarker (b : Nat) : Bool :=
  !isAlpha b && !isHigh b

/-- Attempt to match the pattern
[a-zA-Z]*[\x80-\xff]+[a-zA-Z]*[^a-zA-Z\x80-\xff]? at the head of the
list, greedily (the character classes are pairwise disjoint, so the
greedy parse is the unique backtracking-free parse).  Returns the
length of the match, or none when no high byte follows the leading
alphabetic run. -/
def matchLen (l : List Nat) : Option Nat :=
  let a1 := (l.takeWhile isAlpha).length
  let r1 := l.drop a1
  let h := (r1.takeWhile isHigh).length
  if h = 0 then none
  else
    let r2 := r1.drop h
    let a2 := (r2.takeWhile isAlpha).length
    let r3 := r2.drop a2
    let m := match r3 with
      | [] => 0
      | b :: _ => if isMarker b then 1 else 0
    some (a1 + h + a2 + m)

/-- re.sub for the international-words pattern: scan left to right; at
each position, if the pattern matches, emit one space (0x20) and resume
after the match, otherwise emit the byte and advance one position. -/
def subInternational (l : List Nat) : List Nat :=
  match hm : matchLen l with
  | some n => 32 :: subInternational (l.drop n)
  | none =>
    match l with
    | [] => []
    | b :: rest => b :: subInternational rest
termination_by l.length
decreasing_by
  · have hn : 0 < n := by
      unfold matchLen at hm
      by_cases hh : ((l.drop (l.takeWhile isAlpha).length).takeWhile isHigh).length = 0
      · simp [hh] at hm
      · simp [hh] at hm
        omega
    have hl : l ≠ [] := by
      intro he
      subst he
      simp [matchLen] at hm
    have h0 : 0 < l.length := List.length_pos.mpr hl
    rw [List.length_drop]
    omega
  · simp

/-- CharSetProber.filter_international_words:
INTERNATIONAL_WORDS_PATTERN.sub(b" ", buf). -/
def filter_international_words (buf : List Nat) : List Nat :=
  subInternational buf

/-
chardet/universaldetector.py
-/

/-- A detection verdict, the result dict of UniversalDetector: encoding
(None until determined), confidence (float, modelled as Rat), language
(None initially, a string once set). -/
structure Verdict where
  encoding : Option String
  confidence : Rat
  language : Option String
deriving DecidableEq

/-- The null verdict {encoding: None, confidence: 0.0, language: None}. -/
def nullVerdict : Verdict :=
  { encoding := none, confidence := 0, language := none }

/-- Modelled from the spec: the ESC-sequence prober.  chardet/escprober.py
is part of the repository but not among the given sources; spec section 1
places it out of scope behind the narrow prober contract of section 4.2
(feed, state, charset_name, get_confidence, language).  A deterministic
prober is a function of the chunks it has been fed, so the model is a
record of functions of that history; the development quantifies over all
such models. -/
structure EscModel where
  probe : List (List Nat) → ProbingState
  name : List (List Nat) → String
  conf : List (List Nat) → Rat
  lang : List (List Nat) → String

/-- A trivial EscModel used to instantiate closed evaluations: it never
reports FOUND_IT. -/
def trivialEsc : EscModel :=
  { probe := fun _ => ProbingState.detecting
    name := fun _ => ("")
    conf := fun _ => 0
    lang := fun _ => ("") }

/-- Modelled from the spec: the HIGH_BYTE group probers
(MBCSGroupProber, SBCSGroupProber, Latin1Prober), absent from the given
sources; only the contract surface of spec section 4.2 (name,
confidence, language) is needed, because — as proved below — the list
that would hold them always stays empty: the UTF1632Prober constructor
on line 188 of universaldetector.py raises before line 190 can run. -/
structure GroupProber where
  name : String
  confidence : Rat
  language : String
deriving DecidableEq

/-- The state of UniversalDetector.  `escChunks = some h` models a
constructed EscCharSetProber that has been fed the chunks h in order
(none: not yet constructed).  `utf1632` and `groupProbers` model
`_utf1632_prober` and `_charset_probers`. -/
structure UniversalDetector where
  result : Verdict
  done : Bool
  gotData : Bool
  inputState : InputState
  lastChar : Option Nat
  hasWinBytes : Bool
  escChunks : Option (List (List Nat))
  utf1632 : Option UTF1632Prober
  groupProbers : List GroupProber

/-- MINIMUM_THRESHOLD = 0.2 in universaldetector.py. -/
def minimumThreshold : Rat := 2 / 10

/-- The state established by UniversalDetector.reset (and hence by the
constructor). -/
def udInit : UniversalDetector :=
  { result := nullVerdict
    done := false
    gotData := false
    inputState := InputState.pureAscii
    lastChar := none
    hasWinBytes := false
    escChunks := none
    utf1632 := none
    groupProbers := [] }

/-- UniversalDetector.reset. -/
def UniversalDetector.reset (_ : UniversalDetector) : UniversalDetector :=
  udInit

/-- Python truthiness of `self._last_char`: falsy when no byte has been
seen yet (None) and also when the most recent byte is 0x00 — the int 0
is falsy. -/
def lastCharFalsy : Option Nat → Bool
  | none => true
  | some b => b = 0

/-- One step of the input-class loop of UniversalDetector.feed
(universaldetector.py lines 152-166): update the input-class state
machine, the Windows-byte flag, and last_char. -/
def classStep (s : UniversalDetector) (b : Nat) : UniversalDetector :=
  match s.inputState with
  | InputState.pureAscii =>
      if 0x7F < b then
        { s with
            inputState :=
              if 0xC0 < b then InputState.highByte else InputState.escAscii
            lastChar := some b }
      else { s with lastChar := some b }
  | InputState.escAscii =>
      if 0x7F < b then
        { s with inputState := InputState.highByte, lastChar := some b }
      else { s with lastChar := some b }
  | InputState.highByte =>
      if 0x80 ≤ b ∧ b ≤ 0x9F then
        { s with hasWinBytes := true, lastChar := some b }
      else { s with lastChar := some b }

/-- The input-class loop over a whole chunk. -/
def classifyChunk (s : UniversalDetector) (bs : List Nat) : UniversalDetector :=
  bs.foldl classStep s

/-- The dispatch section of UniversalDetector.feed (lines 168-203).  In
the ESC_ASCII input class the (modelled) ESC prober is lazily created
and fed the chunk; a FOUND_IT latches its verdict.  In the HIGH_BYTE
input class, line 187 finds `_utf1632_prober` still None and line 188
evaluates `UTF1632Prober()`, whose `__init__` calls `self.reset()`,
which executes `CharSetProber.reset(self)` — an attribute that
chardet/charsetprober.py never defines — so the call raises
AttributeError; the assignment never completes and lines 189-203 are
never reached.  The mutated-so-far detector state is returned with the
error, matching Python semantics. -/
def dispatch (E : EscModel) (s : UniversalDetector) (bs : List Nat) :
    UniversalDetector × Option PyErr :=
  match s.inputState with
  | InputState.pureAscii => (s, none)
  | InputState.escAscii =>
      let hist := (s.escChunks.getD []) ++ [bs]
      let s1 := { s with escChunks := some hist }
      if E.probe hist = ProbingState.foundIt then
        ({ s1 with
            result :=
              { encoding := some (E.name hist)
                confidence := E.conf hist
                language := some (E.lang hist) }
            done := true }, none)
      else (s1, none)
  | InputState.highByte =>
      match s.utf1632 with
      | none => (s, some PyErr.attributeError)
      | some u =>
          -- Unreachable from udInit: the constructor on line 188 always
          -- raises, so `_utf1632_prober` is never assigned.  Kept total:
          -- feed the UTF-16/32 prober (src) and latch on FOUND_IT; the
          -- group probers (not among the sources) are modelled as never
          -- reporting FOUND_IT, which this dead branch never exercises.
          let fed := u.feed bs
          if fed.1 = ProbingState.foundIt then
            ({ s with
                utf1632 := some fed.2
                result :=
                  { encoding := fed.2.charsetName
                    confidence := fed.2.get_confidence
                    language := some ("") }
                done := true }, none)
          else ({ s with utf1632 := some fed.2 }, none)

/-- The BOM table comparison of UniversalDetector.feed (lines 109-149),
in source order: UTF-8, UTF-32LE, UTF-32BE, UTF-16LE, UTF-16BE.
Returns the latched verdict when the chunk starts with a BOM. -/
def bomVerdict (bs : List Nat) : Option Verdict :=
  if bs.take 3 = [0xEF, 0xBB, 0xBF] then
    some { encoding := some ("UTF-8-SIG"), confidence := 1, language := some ("") }
  else if bs.take 4 = [0xFF, 0xFE, 0x00, 0x00] then
    some { encoding := some ("UTF-32LE"), confidence := 1, language := some ("") }
  else if bs.take 4 = [0x00, 0x00, 0xFE, 0xFF] then
    some { encoding := some ("UTF-32BE"), confidence := 1, language := some ("") }
  else if bs.take 2 = [0xFF, 0xFE] then
    some { encoding := some ("UTF-16LE"), confidence := 1, language := some ("") }
  else if bs.take 2 = [0xFE, 0xFF] then
    some { encoding := some ("UTF-16BE"), confidence := 1, language := some ("") }
  else none

/-- UniversalDetector.feed: no-op when done or when the chunk is empty;
otherwise set got_data, run the BOM comparison when `not
self._last_char` is truthy (None or last byte 0x00), then the
input-class loop and the dispatch section. -/
def UniversalDetector.feed (E : EscModel) (s : UniversalDetector)
    (bs : List Nat) : UniversalDetector × Option PyErr :=
  if s.done then (s, none)
  else if bs.length = 0 then (s, none)
  else
    let s1 := { s with gotData := true }
    if lastCharFalsy s1.lastChar then
      match bomVerdict bs with
      | some v => ({ s1 with result := v, done := true }, none)
      | none => dispatch E (classifyChunk s1 bs) bs
    else dispatch E (classifyChunk s1 bs) bs

/-- Feed a sequence of chunks in order.  An AttributeError raised by
feed leaves the detector exactly as mutated before the raise (Python
object semantics); this driver models a caller that catches the
exception and keeps going, which is the only way a run can continue
past the first HIGH_BYTE chunk. -/
def feedAll (E : EscModel) : UniversalDetector → List (List Nat) → UniversalDetector
  | s, [] => s
  | s, c :: cs => feedAll E (UniversalDetector.feed E s c).1 cs

/-- A reference to one prober in the close-time prober list. -/
inductive ProberRef
  | utfRef (u : UTF1632Prober)
  | grpRef (g : GroupProber)
deriving DecidableEq

/-- charset_name of a prober reference. -/
def proberName : ProberRef → Option String
  | ProberRef.utfRef u => u.charsetName
  | ProberRef.grpRef g => some g.name

/-- get_confidence of a prober reference. -/
def proberConf : ProberRef → Rat
  | ProberRef.utfRef u => u.get_confidence
  | ProberRef.grpRef g => g.confidence

/-- language of a prober reference. -/
def proberLang : ProberRef → Option String
  | ProberRef.utfRef _ => some ("")
  | ProberRef.grpRef g => some g.language

/-- The prober list built by UniversalDetector.close (lines 223-227):
[utf1632] + charset_probers when the UTF-16/32 prober exists, otherwise
just charset_probers. -/
def closeProbers (s : UniversalDetector) : List ProberRef :=
  match s.utf1632 with
  | some u => ProberRef.utfRef u :: s.groupProbers.map ProberRef.grpRef
  | none => s.groupProbers.map ProberRef.grpRef

/-- The confidences of the close-time prober list. -/
def proberConfs (s : UniversalDetector) : List Rat :=
  (closeProbers s).map proberConf

/-- Python max(prober_confidences, key=lambda x: x[1]): the first
element attaining the maximal confidence, none for an empty list. -/
def maxByConf : List (ProberRef × Rat) → Option (ProberRef × Rat)
  | [] => none
  | x :: xs => some (xs.foldl (fun best y => if best.2 < y.2 then y else best) x)

/-- The HIGH_BYTE branch of UniversalDetector.close (lines 222-247):
when the prober-confidence list is nonempty, latch the maximal prober
if its confidence exceeds MINIMUM_THRESHOLD; only when the list is
empty (`elif`) does `has_win_bytes` trigger the windows-1252 fallback. -/
def closeHighByte (s : UniversalDetector) : UniversalDetector :=
  let pcs := (closeProbers s).map fun p => (p, proberConf p)
  match maxByConf pcs with
  | some best =>
      if minimumThreshold < best.2 then
        { s with result :=
            { encoding := proberName best.1
              confidence := best.2
              language := proberLang best.1 } }
      else s
  | none =>
      if s.hasWinBytes then
        { s with result :=
            { encoding := some ("windows-1252")
              confidence := 9 / 10
              language := some ("") } }
      else s

/-- UniversalDetector.close: returns the verdict and the detector state
after the call.  The no-data branch (line 214) and the PURE_ASCII
branch (line 218) return early, before line 249 sets done; the final
line returns the stored result unless its encoding is still None, in
which case a fresh null verdict is returned. -/
def UniversalDetector.close (s : UniversalDetector) :
    Verdict × UniversalDetector :=
  if s.done then (s.result, s)
  else if s.gotData = false then (s.result, s)
  else if s.inputState = InputState.pureAscii then
    let r : Verdict :=
      { encoding := some ("ascii"), confidence := 1, language := some ("") }
    (r, { s with result := r })
  else
    let s1 := if s.inputState = InputState.highByte then closeHighByte s else s
    let s2 := { s1 with done := true }
    (if s2.result.encoding ≠ none then s2.result else nullVerdict, s2)

/-
Run helpers and distinguished states used by the statements below.
-/

/-- The prober state after feeding a sequence of chunks to a fresh
UTF1632Prober. -/
def utf1632Run (chunks : List (List Nat)) : UTF1632Prober :=
  chunks.foldl (fun t c => (UTF1632Prober.feed t c).2) utf1632Init

/-- A UTF1632Prober whose probing state is NOT_ME, other fields fresh. -/
def utf1632NotMeState : UTF1632Prober :=
  { utf1632Init with state := ProbingState.notMe }

/-- A UTF1632Prober whose probing state is FOUND_IT, other fields fresh. -/
def utf1632FoundState : UTF1632Prober :=
  { utf1632Init with state := ProbingState.foundIt }

/-- The distribution analyzer resulting from a sequence of feed calls
(each a character together with its char_len) on a freshly wired
analyzer. -/
def distRun (table : List Nat) (tableSize : Nat) (ratio : Rat)
    (feeds : List (List Nat × Nat)) : CharDistributionAnalysis :=
  feeds.foldl (fun s p => CharDistributionAnalysis.feed s p.1 p.2)
    (mkDistribution table tableSize ratio)

/-- The coordinator invariant used below: the UTF-16/32 prober slot and
the group-prober list are never filled (the constructor on line 188 of
universaldetector.py raises before either assignment can complete), and
a detector whose input class is HIGH_BYTE has seen data. -/
def udInv (s : UniversalDetector) : Prop :=
  s.utf1632 = none ∧ s.groupProbers = []
    ∧ (s.inputState = InputState.highByte → s.gotData = true)

/-
Lemmas about the zero-byte positional analyzer.
-/

theorem utf1632Step_state (s : UTF1632Prober) (b : Nat) :
    (utf1632Step s b).state = s.state := rfl

theorem utf1632Step_position (s : UTF1632Prober) (b : Nat) :
    (utf1632Step s b).position = s.position + 1 := rfl

theorem utf1632Step_zerosAtMod (s : UTF1632Prober) (b : Nat) :
    (utf1632Step s b).zerosAtMod =
      if b = 0 then
        s.zerosAtMod.set (s.position % 4)
          (s.zerosAtMod.getD (s.position % 4) 0 + 1)
      else s.zerosAtMod := rfl

theorem utf1632Step_nonzerosAtMod (s : UTF1632Prober) (b : Nat) :
    (utf1632Step s b).nonzerosAtMod =
      if b = 0 then s.nonzerosAtMod
      else
        s.nonzerosAtMod.set (s.position % 4)
          (s.nonzerosAtMod.getD (s.position % 4) 0 + 1) := rfl

theorem utf1632Loop_foundIt (bs : List Nat) (s : UTF1632Prober)
    (h : s.state = ProbingState.foundIt) :
    (utf1632Loop s bs).state = ProbingState.foundIt := by
  induction bs generalizing s with
  | nil => simpa [utf1632Loop] using h
  | cons b rest ih =>
      unfold utf1632Loop
      have hs : (utf1632Step s b).state = ProbingState.foundIt := by
        rw [utf1632Step_state]; exact h
      split
      · split
        · rfl
        · exact ih _ hs
      · exact ih _ hs

theorem utf1632Loop_position (bs : List Nat) (s : UTF1632Prober) :
    s.position ≤ (utf1632Loop s bs).position := by
  induction bs generalizing s with
  | nil => simp [utf1632Loop]
  | cons b rest ih =>
      unfold utf1632Loop
      have hp : s.position ≤ (utf1632Step s b).position := by
        rw [utf1632Step_position]; omega
      split
      · split
        · exact hp
        · exact hp.trans (ih _)
      · exact hp.trans (ih _)

theorem list_sum_set_getD_succ (l : List Nat) (m : Nat) (h : m < l.length) :
    (l.set m (l.getD m 0 + 1)).sum = l.sum + 1 := by
  induction l generalizing m with
  | nil => simp at h
  | cons a t ih =>
      cases m with
      | zero =>
          simp only [List.set_cons_zero, List.getD_cons_zero, List.sum_cons]
          omega
      | succ k =>
          have hk : k < t.length := by simpa using h
          have ihk := ih k hk
          simp only [List.set_cons_succ, List.getD_cons_succ, List.sum_cons]
          omega

/-- The counter invariant of the positional analyzer: both counter
lists have four cells and their joint sum equals the running position. -/
def utf1632CounterInv (s : UTF1632Prober) : Prop :=
  s.zerosAtMod.length = 4 ∧ s.nonzerosAtMod.length = 4
    ∧ s.zerosAtMod.sum + s.nonzerosAtMod.sum = s.position

theorem utf1632CounterInv_step (s : UTF1632Prober) (b : Nat)
    (h : utf1632CounterInv s) : utf1632CounterInv (utf1632Step s b) := by
  obtain ⟨h1, h2, h3⟩ := h
  have hm : s.position % 4 < 4 := Nat.mod_lt _ (by omega)
  refine ⟨?_, ?_, ?_⟩
  · rw [utf1632Step_zerosAtMod]
    by_cases hb : b = 0 <;> simp [hb, List.length_set, h1]
  · rw [utf1632Step_nonzerosAtMod]
    by_cases hb : b = 0 <;> simp [hb, List.length_set, h2]
  · rw [utf1632Step_zerosAtMod, utf1632Step_nonzerosAtMod, utf1632Step_position]
    by_cases hb : b = 0
    · rw [if_pos hb, if_pos hb,
        list_sum_set_getD_succ s.zerosAtMod (s.position % 4) (by omega)]
      omega
    · rw [if_neg hb, if_neg hb,
        list_sum_set_getD_succ s.nonzerosAtMod (s.position % 4) (by omega)]
      omega

theorem utf1632CounterInv_loop (bs : List Nat) (s : UTF1632Prober)
    (h : utf1632CounterInv s) : utf1632CounterInv (utf1632Loop s bs) := by
  induction bs generalizing s with
  | nil => simpa [utf1632Loop] using h
  | cons b rest ih =>
      unfold utf1632Loop
      have hstep := utf1632CounterInv_step s b h
      split
      · split
        · exact hstep
        · exact ih _ hstep
      · exact ih _ hstep

theorem utf1632CounterInv_feed (s : UTF1632Prober) (bs : List Nat)
    (h : utf1632CounterInv s) :
    utf1632CounterInv (UTF1632Prober.feed s bs).2 := by
  unfold UTF1632Prober.feed
  split
  · exact h
  · exact utf1632CounterInv_loop bs s h

theorem foldl_feed_inv (chunks : List (List Nat)) (s : UTF1632Prober)
    (h : utf1632CounterInv s) :
    utf1632CounterInv
      (chunks.foldl (fun t c => (UTF1632Prober.feed t c).2) s) := by
  induction chunks generalizing s with
  | nil => exact h
  | cons c cs ih =>
      rw [List.foldl_cons]
      exact ih _ (utf1632CounterInv_feed s c h)

theorem utf1632CounterInv_run (chunks : List (List Nat)) :
    utf1632CounterInv (utf1632Run chunks) :=
  foldl_feed_inv chunks utf1632Init ⟨rfl, rfl, rfl⟩

/-
Claim theorems for the zero-byte positional analyzer.
-/

/-- Claim C4 (code bug): feeding the four bytes 00 41 DC 00 to a fresh
UTF1632Prober leaves invalid_utf16be (and the pending-surrogate flag)
false, although the pair ending at position 3 — the bytes DC 00, value
0xDC00 — is an orphan low surrogate: no high surrogate is pending (the
pair at position 1 was 0x0041).  The claim says every odd position
validates the two bytes ending there, which would set the flag; the
source instead slices quad[(3-1)%4 : (3+1)%4] = quad[2:0], the empty
byte string, whose value 0 validates as a regular character. -/
theorem c4_orphan_low_surrogate_missed :
    (UTF1632Prober.feed utf1632Init [0x00, 0x41, 0xDC, 0x00]).2.invalidUtf16be = false
    ∧ (UTF1632Prober.feed utf1632Init [0x00, 0x41, 0xDC, 0x00]).2.firstHalf16be = false
    ∧ (0xDC00 ≤ beVal [0xDC, 0x00] ∧ beVal [0xDC, 0x00] ≤ 0xDFFF)
    ∧ pySlice ((utf1632Run [[0x00, 0x41, 0xDC, 0x00]]).quad) ((3 - 1) % 4) ((3 + 1) % 4) = [] := by
  decide

/-- Claim C9, counterexample: from a prober whose probing state is
FOUND_IT, a feed call returns the terminal state FOUND_IT; a further
feed call again returns FOUND_IT, but it mutates the accumulated
zero-byte counters, contrary to the claim that the evidence is not
meaningfully mutated by calls made after a terminal state was
returned. -/
theorem c9_counterexample :
    (UTF1632Prober.feed utf1632FoundState []).1 = ProbingState.foundIt
    ∧ (UTF1632Prober.feed (UTF1632Prober.feed utf1632FoundState []).2 [0]).1
        = ProbingState.foundIt
    ∧ (UTF1632Prober.feed (UTF1632Prober.feed utf1632FoundState []).2 [0]).2.zerosAtMod
        ≠ (UTF1632Prober.feed utf1632FoundState []).2.zerosAtMod := by
  decide

/-- Claim C9, amended: once the probing state is NOT_ME, feed returns
NOT_ME and leaves the prober entirely unchanged; once it is FOUND_IT,
feed always returns FOUND_IT (the state is never left), but such calls
may keep processing bytes and mutate the counters, as the
counterexample shows. -/
theorem c9_terminal_state_monotone (s : UTF1632Prober) (bs : List Nat) :
    (s.state = ProbingState.notMe →
      UTF1632Prober.feed s bs = (ProbingState.notMe, s))
    ∧ (s.state = ProbingState.foundIt →
      (UTF1632Prober.feed s bs).1 = ProbingState.foundIt) := by
  constructor
  · intro h
    simp [UTF1632Prober.feed, h]
  · intro h
    have hne : ¬s.state = ProbingState.notMe := by
      rw [h]; intro hc; cases hc
    simp only [UTF1632Prober.feed, if_neg hne]
    exact utf1632Loop_foundIt bs s h

/-- Witness for the amended claim C9 at concrete probers: a NOT_ME
prober fed one byte stays fixed, a FOUND_IT prober fed one byte reports
FOUND_IT. -/
theorem c9_terminal_state_monotone_witness :
    UTF1632Prober.feed utf1632NotMeState [0]
      = (ProbingState.notMe, utf1632NotMeState)
    ∧ (UTF1632Prober.feed utf1632FoundState [0]).1 = ProbingState.foundIt :=
  ⟨(c9_terminal_state_monotone utf1632NotMeState [0]).1 rfl,
   (c9_terminal_state_monotone utf1632FoundState [0]).2 rfl⟩

/-- Claim C10 (implicit invariants of the positional analyzer): after
any sequence of feed calls from a fresh prober, the eight counters sum
to the position (every processed byte is counted in exactly one cell);
feed never decreases the position; and reset restores position 0 with
all eight counters zero. -/
theorem c10_counter_invariants :
    (∀ chunks : List (List Nat),
      (utf1632Run chunks).zerosAtMod.sum + (utf1632Run chunks).nonzerosAtMod.sum
        = (utf1632Run chunks).position)
    ∧ (∀ (s : UTF1632Prober) (bs : List Nat),
      s.position ≤ (UTF1632Prober.feed s bs).2.position)
    ∧ (∀ s : UTF1632Prober,
      (UTF1632Prober.reset s).position = 0
      ∧ (UTF1632Prober.reset s).zerosAtMod = [0, 0, 0, 0]
      ∧ (UTF1632Prober.reset s).nonzerosAtMod = [0, 0, 0, 0]) := by
  refine ⟨fun chunks => (utf1632CounterInv_run chunks).2.2, ?_, ?_⟩
  · intro s bs
    unfold UTF1632Prober.feed
    split
    · exact le_refl _
    · exact utf1632Loop_position bs s
  · intro s
    exact ⟨rfl, rfl, rfl⟩

/-
Lemmas about the character distribution analyzer.
-/

theorem dictEnumerate_find_bytesKey (t : List Nat) (c : List Nat) :
    List.find? (fun kv => kv.1 = PyKey.bytesKey c) (dictEnumerate t) = none := by
  unfold dictEnumerate
  induction t.enum with
  | nil => rfl
  | cons p l ih =>
      rw [List.map_cons, List.find?_cons]
      have hd : (decide (PyKey.intKey p.1 = PyKey.bytesKey c)) = false := by
        simp
      rw [hd]
      exact ih

theorem get_order_mk (t : List Nat) (ts : Nat) (r : Rat) (char : List Nat) :
    (mkDistribution t ts r).get_order char = -1 := by
  unfold CharDistributionAnalysis.get_order
  split
  · rfl
  · unfold dictGet mkDistribution
    rw [dictEnumerate_find_bytesKey]

theorem feed_mk (t : List Nat) (ts : Nat) (r : Rat) (char : List Nat)
    (len : Nat) :
    CharDistributionAnalysis.feed (mkDistribution t ts r) char len
      = mkDistribution t ts r := by
  unfold CharDistributionAnalysis.feed
  split
  · rw [if_neg]
    intro hc
    exact hc (get_order_mk t ts r char)
  · rfl

theorem distRun_eq (t : List Nat) (ts : Nat) (r : Rat)
    (feeds : List (List Nat × Nat)) :
    distRun t ts r feeds = mkDistribution t ts r := by
  unfold distRun
  induction feeds with
  | nil => rfl
  | cons p rest ih =>
      rw [List.foldl_cons, feed_mk]
      exact ih

theorem get_confidence_mk (t : List Nat) (ts : Nat) (r : Rat) :
    (mkDistribution t ts r).get_confidence = sureNo := by
  unfold CharDistributionAnalysis.get_confidence
  rw [if_pos]
  exact Or.inl (le_refl 0)

/-
Claim theorems for the character distribution analyzer.
-/

/-- Claim C3 (code bug): a two-byte character whose little-endian
integer key indexes an entry of the frequency table nevertheless leaves
the analyzer unchanged — total_chars is not incremented.  The
constructors build `_char_to_freq_order` as dict(enumerate(table)),
whose keys are the integer indices, while get_order queries the dict
with the bytes object; the lookup therefore always returns -1 (the
code's own comment, "The char_to_freq_order dictionary uses the byte
string as key", contradicts the construction). -/
theorem c3_feed_never_counts (table : List Nat) (tableSize : Nat)
    (ratio : Rat) (char : List Nat) (h2 : char.length = 2)
    (hk : leVal char < table.length) :
    CharDistributionAnalysis.feed (mkDistribution table tableSize ratio) char 2
      = mkDistribution table tableSize ratio :=
  feed_mk table tableSize ratio char 2

/-- Witness for C3: the Big5-style wiring over a two-entry table, fed
the character 01 00 (little-endian key 1, which indexes entry 1): the
analyzer is unchanged and total_chars stays 0. -/
theorem c3_feed_never_counts_witness :
    [1, 0].length = 2
    ∧ leVal [1, 0] < ([5, 7] : List Nat).length
    ∧ CharDistributionAnalysis.feed (mkDistribution [5, 7] 1 (3 / 4)) [1, 0] 2
        = mkDistribution [5, 7] 1 (3 / 4)
    ∧ (CharDistributionAnalysis.feed (mkDistribution [5, 7] 1 (3 / 4)) [1, 0] 2).totalChars
        = 0 :=
  ⟨by decide, by decide,
   c3_feed_never_counts [5, 7] 1 (3 / 4) [1, 0] (by decide) (by decide),
   by rw [c3_feed_never_counts [5, 7] 1 (3 / 4) [1, 0] (by decide) (by decide)]; rfl⟩

/-- Claim C8 (invariants): in every state of the distribution analyzer
reachable by a sequence of feed calls from a freshly wired analyzer,
freq_chars is at most total_chars, get_confidence lies between SURE_NO
and SURE_YES, and get_confidence equals SURE_NO whenever freq_chars is
at most MINIMUM_DATA_THRESHOLD = 3.  (The property holds degenerately:
by claim C3's bug, feed never mutates the analyzer, so the only
reachable state is the reset state, whose confidence is SURE_NO.) -/
theorem c8_distribution_bounds (table : List Nat) (tableSize : Nat)
    (ratio : Rat) (feeds : List (List Nat × Nat)) :
    (distRun table tableSize ratio feeds).freqChars
      ≤ (distRun table tableSize ratio feeds).totalChars
    ∧ sureNo ≤ (distRun table tableSize ratio feeds).get_confidence
    ∧ (distRun table tableSize ratio feeds).get_confidence ≤ sureYes
    ∧ ((distRun table tableSize ratio feeds).freqChars ≤ minimumDataThreshold →
        (distRun table tableSize ratio feeds).get_confidence = sureNo) := by
  rw [distRun_eq, get_confidence_mk]
  refine ⟨le_refl _, le_refl _, ?_, fun _ => rfl⟩
  unfold sureNo sureYes
  norm_num

/-- Witness for C8 at a concrete analyzer and feed sequence: the
freq_chars bound of the implication is satisfied and the confidence is
SURE_NO. -/
theorem c8_distribution_bounds_witness :
    (distRun [5, 7] 1 (3 / 4) [([1, 0], 2)]).freqChars ≤ minimumDataThreshold
    ∧ (distRun [5, 7] 1 (3 / 4) [([1, 0], 2)]).get_confidence = sureNo :=
  ⟨by decide,
   (c8_distribution_bounds [5, 7] 1 (3 / 4) [([1, 0], 2)]).2.2.2 (by decide)⟩

/-
Lemmas about the coordinator.
-/

theorem classStep_fields (s : UniversalDetector) (b : Nat) :
    (classStep s b).utf1632 = s.utf1632
    ∧ (classStep s b).groupProbers = s.groupProbers
    ∧ (classStep s b).gotData = s.gotData := by
  cases hs : s.inputState <;> simp only [classStep, hs] <;> split <;>
    exact ⟨by simp, by simp, by simp⟩

theorem classifyChunk_fields (bs : List Nat) (s : UniversalDetector) :
    (classifyChunk s bs).utf1632 = s.utf1632
    ∧ (classifyChunk s bs).groupProbers = s.groupProbers
    ∧ (classifyChunk s bs).gotData = s.gotData := by
  induction bs generalizing s with
  | nil => exact ⟨rfl, rfl, rfl⟩
  | cons b rest ih =>
      have h1 := classStep_fields s b
      have h2 := ih (classStep s b)
      unfold classifyChunk at h2 ⊢
      rw [List.foldl_cons]
      exact ⟨h2.1.trans h1.1, h2.2.1.trans h1.2.1, h2.2.2.trans h1.2.2⟩

theorem dispatch_fields (E : EscModel) (s : UniversalDetector)
    (bs : List Nat) (hu : s.utf1632 = none) :
    (dispatch E s bs).1.utf1632 = none
    ∧ (dispatch E s bs).1.groupProbers = s.groupProbers
    ∧ (dispatch E s bs).1.gotData = s.gotData
    ∧ (dispatch E s bs).1.inputState = s.inputState := by
  cases hs : s.inputState <;> simp only [dispatch, hs]
  · exact ⟨hu, by simp, by simp, by simp [hs]⟩
  · split
    · exact ⟨by simp [hu], by simp, by simp, by simp [hs]⟩
    · exact ⟨by simp [hu], by simp, by simp, by simp [hs]⟩
  · rw [hu]
    exact ⟨hu, by simp, by simp, by simp [hs]⟩

theorem feed_inv (E : EscModel) (s : UniversalDetector) (bs : List Nat)
    (h : udInv s) : udInv (UniversalDetector.feed E s bs).1 := by
  obtain ⟨hu, hg, hgd⟩ := h
  unfold UniversalDetector.feed
  by_cases hd : s.done
  · rw [if_pos hd]
    exact ⟨hu, hg, hgd⟩
  · rw [if_neg hd]
    by_cases he : bs.length = 0
    · rw [if_pos he]
      exact ⟨hu, hg, hgd⟩
    · rw [if_neg he]
      by_cases hl : lastCharFalsy ({ s with gotData := true } :
          UniversalDetector).lastChar
      · rw [if_pos hl]
        cases hb : bomVerdict bs with
        | some v => exact ⟨hu, hg, fun _ => rfl⟩
        | none =>
            have hcf := classifyChunk_fields bs { s with gotData := true }
            have hdf := dispatch_fields E (classifyChunk { s with gotData := true } bs)
              bs (hcf.1.trans hu)
            exact ⟨hdf.1, hdf.2.1.trans (hcf.2.1.trans hg),
              fun _ => hdf.2.2.1.trans hcf.2.2⟩
      · rw [if_neg hl]
        have hcf := classifyChunk_fields bs { s with gotData := true }
        have hdf := dispatch_fields E (classifyChunk { s with gotData := true } bs)
          bs (hcf.1.trans hu)
        exact ⟨hdf.1, hdf.2.1.trans (hcf.2.1.trans hg),
          fun _ => hdf.2.2.1.trans hcf.2.2⟩

theorem feedAll_inv (E : EscModel) (chunks : List (List Nat))
    (s : UniversalDetector) (h : udInv s) : udInv (feedAll E s chunks) := by
  induction chunks generalizing s with
  | nil => exact h
  | cons c cs ih => exact ih _ (feed_inv E s c h)

theorem udInv_run (E : EscModel) (chunks : List (List Nat)) :
    udInv (feedAll E udInit chunks) :=
  feedAll_inv E chunks udInit ⟨rfl, rfl, fun hc => by cases hc⟩

theorem close_no_probers_win (s : UniversalDetector)
    (hdone : s.done = false) (hst : s.inputState = InputState.highByte)
    (hgot : s.gotData = true) (hu : s.utf1632 = none)
    (hg : s.groupProbers = []) (hw : s.hasWinBytes = true) :
    (UniversalDetector.close s).1 =
      { encoding := some ("windows-1252"), confidence := 9 / 10,
        language := some ("") } := by
  unfold UniversalDetector.close
  rw [if_neg (by rw [hdone]; intro hc; cases hc)]
  rw [if_neg (by rw [hgot]; intro hc; cases hc)]
  rw [if_neg (by rw [hst]; intro hc; cases hc)]
  rw [if_pos hst]
  unfold closeHighByte closeProbers
  rw [hu, hg]
  simp only [List.map_nil, maxByConf]
  rw [if_pos hw]
  rfl

/-
Claim theorems for the coordinator.
-/

/-- Claim C1 (code bug): feeding a chunk that moves the input class to
HIGH_BYTE raises.  The byte 0xE9 (> 0xC0) drives the input class from
PURE_ASCII to HIGH_BYTE, after which line 188 of universaldetector.py
evaluates UTF1632Prober(), whose constructor calls reset, which calls
CharSetProber.reset — an attribute chardet/charsetprober.py never
defines — so feed terminates with an AttributeError instead of
completing normally as the claim requires. -/
theorem c1_feed_high_byte_raises :
    (UniversalDetector.feed trivialEsc udInit [0xE9]).1.inputState
      = InputState.highByte
    ∧ (UniversalDetector.feed trivialEsc udInit [0xE9]).2
        = some PyErr.attributeError := by
  decide

/-- Claim C2, counterexample: a run that reaches HIGH_BYTE (first chunk
E9 92 00: 0xE9 enters HIGH_BYTE and 0x92 in 0x80..0x9F is observed
after entering), whose close-time prober list is empty (so no prober
confidence exceeds MINIMUM_THRESHOLD), yet close() returns
("UTF-16BE", 1.0, "") rather than ("windows-1252", 0.9, ""): the chunk
ended with the byte 0x00, which makes `not self._last_char` truthy, so
the next chunk FE FF is latched as a UTF-16BE BOM verdict before close
is ever reached. -/
theorem c2_counterexample :
    (feedAll trivialEsc udInit [[0xE9, 0x92, 0x00], [0xFE, 0xFF]]).inputState
      = InputState.highByte
    ∧ (feedAll trivialEsc udInit [[0xE9, 0x92, 0x00], [0xFE, 0xFF]]).hasWinBytes
        = true
    ∧ proberConfs (feedAll trivialEsc udInit [[0xE9, 0x92, 0x00], [0xFE, 0xFF]])
        = []
    ∧ ((feedAll trivialEsc udInit [[0xE9, 0x92, 0x00], [0xFE, 0xFF]]).close).1
        = { encoding := some ("UTF-16BE"), confidence := 1, language := some ("") }
    ∧ ((feedAll trivialEsc udInit [[0xE9, 0x92, 0x00], [0xFE, 0xFF]]).close).1.encoding
        ≠ some ("windows-1252") :=
  ⟨by decide, by decide, by decide, by rfl, by decide⟩

/-- Claim C2, amended: for every run (over any ESC-prober model) that
reaches the HIGH_BYTE input class with a Windows-range byte observed
after entering it, whose prober confidences at close all stay at or
below MINIMUM_THRESHOLD, and in which no verdict was latched during
feeding (done is still false when close is called), close() returns
("windows-1252", 0.9, "").  In this code the prober-confidence
condition is vacuous: the prober list is empty in every such run,
because the UTF1632Prober constructor raises before any prober can be
installed (claim C1), which is also exactly why the `elif` fallback to
windows-1252 fires. -/
theorem c2_win1252_fallback (E : EscModel) (chunks : List (List Nat))
    (h1 : (feedAll E udInit chunks).inputState = InputState.highByte)
    (h2 : (feedAll E udInit chunks).hasWinBytes = true)
    (h3 : (feedAll E udInit chunks).done = false)
    (h4 : ∀ q ∈ proberConfs (feedAll E udInit chunks), q ≤ minimumThreshold) :
    ((feedAll E udInit chunks).close).1 =
      { encoding := some ("windows-1252"), confidence := 9 / 10,
        language := some ("") } := by
  obtain ⟨hu, hg, hgd⟩ := udInv_run E chunks
  exact close_no_probers_win _ h3 h1 (hgd h1) hu hg h2

/-- Witness for the amended claim C2: the single chunk E9 92 enters
HIGH_BYTE and records a Windows-range byte; close returns the
windows-1252 fallback verdict. -/
theorem c2_win1252_fallback_witness :
    ((feedAll trivialEsc udInit [[0xE9, 0x92]]).close).1 =
      { encoding := some ("windows-1252"), confidence := 9 / 10,
        language := some ("") } :=
  c2_win1252_fallback trivialEsc [[0xE9, 0x92]]
    (by decide) (by decide) (by decide) (by decide)

/-- Claim C5 (code bug): after feeding pure-ASCII data, close() returns
the ascii verdict but leaves done false — the PURE_ASCII branch of
close returns before line 249 can set done — so a subsequent feed is
not a no-op (here it advances the input class to ESC_ASCII); the
no-data close() likewise leaves done false. -/
theorem c5_close_leaves_done_false :
    ((feedAll trivialEsc udInit [[0x41]]).close).1
      = { encoding := some ("ascii"), confidence := 1, language := some ("") }
    ∧ ((feedAll trivialEsc udInit [[0x41]]).close).2.done = false
    ∧ (UniversalDetector.feed trivialEsc
        ((feedAll trivialEsc udInit [[0x41]]).close).2 [0x80]).1.inputState
        = InputState.escAscii
    ∧ ((udInit.close).2.done = false) :=
  ⟨by rfl, by decide, by decide, by decide⟩

/-- Claim C6 (code bug): the first chunk 00 carries no recognized BOM,
yet the second chunk FE FF still produces the BOM verdict
("UTF-16BE", 1.0, ""): the BOM comparison is guarded by
`not self._last_char`, which is truthy again because the most recent
byte of the previous chunk was 0x00 (the int 0 is falsy), not by the
got-data flag the claim describes. -/
theorem c6_bom_rechecked_after_zero_byte :
    bomVerdict [0x00] = none
    ∧ (feedAll trivialEsc udInit [[0x00], [0xFE, 0xFF]]).result
        = { encoding := some ("UTF-16BE"), confidence := 1, language := some ("") }
    ∧ (feedAll trivialEsc udInit [[0x00], [0xFE, 0xFF]]).done = true :=
  ⟨by decide, by rfl, by decide⟩

/-- Claim C7 (code bug): filter_international_words applied to
"ab\x80cd" yields a single space — the regex substitution deletes the
international word instead of preserving it — and applied to "!!"
(a maximal run of marker bytes) yields "!!" unchanged instead of a
single space. -/
theorem c7_filter_deletes_international_words :
    filter_international_words [97, 98, 128, 99, 100] = [32]
    ∧ filter_international_words [33, 33] = [33, 33] := by
  constructor
  · simp [filter_international_words, subInternational, matchLen,
      isMarker, isAlpha, isHigh]
  · simp [filter_international_words, subInternational, matchLen,
      isMarker, isAlpha, isHigh]

end Chardet
